import Mathlib

/-!
Verification development for the MalBeacon command-line client
(src/malbeacon/malbeacon.py).  The Python source is shallowly embedded:
pure functions become Lean functions, fallible code returns Option or
Except, and regular-expression matching is transliterated into
deterministic character-list scanners that are observationally equal to
Python's backtracking semantics on the anchored patterns used by the
source (the equivalences are argued in the doc comments of the scanners).
-/

namespace MalBeacon

/-- Errors of the client's pure record-assembly layer.  The source defines
an exception hierarchy rooted at MalBeaconException; the only kind raised
by the code embedded here is MalBeaconParsingException, which carries a
message string. -/
inductive MalBeaconError where
  | parsingError (msg : String)
  deriving DecidableEq

/-- Embedding of MalBeaconClient.is_null (malbeacon.py lines 270-272):
a JSON field value is null-like when it equals the sentinel string NA or
is already absent.  Optional scalar fields of a decoded response line are
modelled as Option String, with none standing for JSON null. -/
def MalBeaconClient.is_null (value : Option String) : Bool :=
  value == some "NA" || value == none

/-- The field-normalizer idiom applied to every optional field in
C2Beacon.from_response_line: None if is_null(value) else value. -/
def normalizeField (value : Option String) : Option String :=
  if MalBeaconClient.is_null value then none else value

/-- Embedding of FixedTimeoutAdapter.send (malbeacon.py lines 17-21),
restricted to its only observable effect on the request: the timeout that
is ultimately used.  Numeric timeout values are modelled as rationals;
the adapter substitutes 5 exactly when the caller passed None. -/
def FixedTimeoutAdapter.sendTimeout (timeout : Option ℚ) : ℚ :=
  match timeout with
  | none => 5
  | some t => t

/-- Numeric value of an ASCII digit character, used by the embedded
strptime fields. -/
def digitVal (c : Char) : Nat := c.toNat - 48

/-- First code points of the blocks of ten consecutive decimal digits
that make up the Unicode category Nd (Unicode 14.0, the table CPython
3.11 compiles str-pattern \d against); every Nd digit is one base plus
its decimal value for exactly one base in this list.  The list was
checked code point by code point against re.match and int on chr(cp)
over the whole code space. -/
def ndBases : List Nat :=
  [48, 1632, 1776, 1984, 2406, 2534, 2662, 2790, 2918, 3046, 3174, 3302,
    3430, 3558, 3664, 3792, 3872, 4160, 4240, 6112, 6160, 6470, 6608,
    6784, 6800, 6992, 7088, 7232, 7248, 42528, 43216, 43264, 43472,
    43504, 43600, 44016, 65296, 66720, 68912, 69734, 69872, 69942, 70096,
    70384, 70736, 70864, 71248, 71360, 71472, 71904, 72016, 72784, 73040,
    73120, 92768, 92864, 93008, 120782, 120792, 120802, 120812, 120822,
    123200, 123632, 125264, 130032]

/-- Python's str-pattern \d: any Unicode decimal digit, i.e. any
character of category Nd. -/
def pyIsDigit (c : Char) : Bool :=
  ndBases.any (fun b => decide (b ≤ c.toNat ∧ c.toNat < b + 10))

/-- Decimal value of a Unicode digit, its offset in its Nd block, as
Python's int reads it; 0 on non-digits, which no caller reaches. -/
def pyDigitVal (c : Char) : Nat :=
  match ndBases.find? (fun b => decide (b ≤ c.toNat ∧ c.toNat < b + 10)) with
  | some b => c.toNat - b
  | none => 0

/-- Base-10 reading of a digit string, as Python int(s, 10) on a run of
Unicode decimal digits: int accepts digits of any script, even mixed,
each contributing its decimal value positionally. -/
def digitsToNat (cs : List Char) : Nat :=
  cs.foldl (fun n c => 10 * n + pyDigitVal c) 0

/-- Scanner for the regex search re.search(r'\d{2,8}', s): find the
leftmost position where at least two consecutive digits start and return
the greedy match, i.e. up to eight digits of the digit run starting
there. -/
def Guesser.searchDigitRun : List Char → Option (List Char)
  | [] => none
  | c :: rest =>
    let run := ((c :: rest).takeWhile pyIsDigit).take 8
    if 2 ≤ run.length then some run else Guesser.searchDigitRun rest

/-- Embedding of Guesser.guess_numeric_asn_from_organization_string
(malbeacon.py lines 42-46): search the string for a 2-to-8 digit run and
read it base 10; absence (None) when the search finds nothing. -/
def Guesser.guess_numeric_asn_from_organization_string
    (organization : String) : Option Nat :=
  (Guesser.searchDigitRun organization.data).map digitsToNat

/-- Whether a character list contains two adjacent Unicode decimal
digits; this is exactly the condition under which
re.search(r'\d{2,8}', s) finds a match. -/
def hasAdjacentDigits : List Char → Bool
  | c1 :: c2 :: rest => (pyIsDigit c1 && pyIsDigit c2) || hasAdjacentDigits (c2 :: rest)
  | _ => false

/-- GeoLocation (malbeacon.py lines 158-161): a pair of signed integer
coordinates. -/
structure GeoLocation where
  latitude : Int
  longitude : Int
  deriving DecidableEq

/-- Python str.replace('.', '') followed by int(_, 10) on a capture of the
geolocation regex: delete the decimal point and read the result base 10,
honouring an optional leading minus sign. -/
def stripDotInt (cs : List Char) : Int :=
  match cs.filter (fun c => c ≠ '.') with
  | '-' :: ds => -(digitsToNat ds : Int)
  | ds => (digitsToNat ds : Int)

/-- Python's str-pattern \s: the whitespace class used by the
geolocation regex, i.e. the code points CPython treats as Unicode
whitespace (the ASCII controls and space, next-line, no-break space,
ogham space mark, the general punctuation spaces, the line and
paragraph separators, and the narrow, mathematical and ideographic
spaces; checked code point by code point against re.match on CPython
3.11 / Unicode 14.0). -/
def pyIsSpace (c : Char) : Bool :=
  let n := c.toNat
  decide ((9 ≤ n ∧ n ≤ 13) ∨ (28 ≤ n ∧ n ≤ 32) ∨ n = 133 ∨ n = 160 ∨
    n = 5760 ∨ (8192 ≤ n ∧ n ≤ 8202) ∨ n = 8232 ∨ n = 8233 ∨ n = 8239 ∨
    n = 8287 ∨ n = 12288)

/-- Unsigned part of one number token of the geolocation regex,
\d+(?:\.\d{4})?, with the already matched sign prepended to the capture:
greedy digits, then the optional fraction group taken exactly when a dot
follows with exactly four digits behind it.  When a dot follows with a
digit count other than four the backtracking regex abandons the group
and leaves a rest beginning with the dot, which is what the else branch
returns; the continuation (a comma or the end anchor) can never accept
that rest, so this deterministic scanner agrees with the regex in the
two anchored contexts where the source uses it. -/
def numTokCore (sgn cs1 : List Char) : Option (List Char × List Char) :=
  let ds := cs1.takeWhile pyIsDigit
  let cs2 := cs1.dropWhile pyIsDigit
  if ds = [] then none
  else if cs2.head? = some '.' then
    let fs := cs2.tail.takeWhile pyIsDigit
    if fs.length = 4 then some (sgn ++ ds ++ '.' :: fs, cs2.tail.dropWhile pyIsDigit)
    else some (sgn ++ ds, cs2)
  else some (sgn ++ ds, cs2)

/-- Scanner for one number token of the geolocation regex,
-?\d+(?:\.\d{4})?, returning the captured characters and the rest of the
input. -/
def numTok (cs : List Char) : Option (List Char × List Char) :=
  if cs.head? = some '-' then numTokCore ['-'] cs.tail else numTokCore [] cs

/-- Scanner for the full geolocation pattern of GeoLocation.from_string,
re.match(r'^(-?\d+(?:\.\d{4})?),\s*(-?\d+(?:\.\d{4})?)$', s), returning
the two captures.  Python's end anchor also matches just before a newline
that ends the string, hence the final test. -/
def geoCaptures (s : String) : Option (List Char × List Char) :=
  match numTok s.data with
  | none => none
  | some (c1, r1) =>
    if r1.head? = some ',' then
      match numTok (r1.tail.dropWhile pyIsSpace) with
      | none => none
      | some (c2, r4) =>
        if r4 = [] ∨ r4 = ['\n'] then some (c1, c2) else none
    else none

/-- Embedding of GeoLocation.from_string (malbeacon.py lines 163-173):
match the 4-digit-precision geolocation pattern, then strip the decimal
point from each capture and read it base 10; raise
MalBeaconParsingException otherwise. -/
def GeoLocation.from_string (s : String) : Except MalBeaconError GeoLocation :=
  match geoCaptures s with
  | none => .error (.parsingError ("Invalid GeoLocation: " ++ s))
  | some (c1, c2) => .ok ⟨stripDotInt c1, stripDotInt c2⟩

/-- The language of the optional fraction part \(\.\d{4})? of one number
of the geolocation grammar: empty, or a dot followed by exactly four
digits. -/
def FracShape (fr : List Char) : Prop :=
  fr = [] ∨ ∃ fs, fr = '.' :: fs ∧ fs.length = 4 ∧ ∀ c ∈ fs, pyIsDigit c = true

/-- The language of one number of the geolocation grammar,
-?\d+(\.\d{4})?: an optional minus sign, a non-empty digit run, and an
optional fraction part. -/
def NumP (cs : List Char) : Prop :=
  ∃ sgn ds fr, cs = sgn ++ (ds ++ fr) ∧ (sgn = [] ∨ sgn = ['-']) ∧
    ds ≠ [] ∧ (∀ c ∈ ds, pyIsDigit c = true) ∧ FracShape fr

/-- A decomposition of a string along the geolocation grammar
-?\d+(\.\d{4})?,\s*-?\d+(\.\d{4})?$ as Python's re module reads it:
first captured number a, the comma, whitespace w, second captured number
b, and the trailer t admitted by Python's end anchor (nothing, or one
final newline). -/
def GeoDecomp (s : String) (a w b t : List Char) : Prop :=
  s.data = a ++ ',' :: (w ++ (b ++ t)) ∧ NumP a ∧
    (∀ c ∈ w, pyIsSpace c = true) ∧ NumP b ∧ (t = [] ∨ t = ['\n'])

/-- Left-pad a string with zeros to the given width. -/
def padZeros (w : Nat) (s : String) : String :=
  String.mk (List.replicate (w - s.length) '0') ++ s

/-- One coordinate of GeoLocation.__str__ (malbeacon.py lines 175-176):
Python renders float(v)/4 with format .4f.  Quarters of integers in the
modelled range are exact binary floats whose 4-decimal rendering is
exact, so the embedding computes the quotient and the scaled remainder
exactly. -/
def fmtCoord (v : Int) : String :=
  let sign := if v < 0 then "-" else ""
  let n := v.natAbs
  sign ++ toString (n / 4) ++ "." ++ padZeros 4 (toString (n % 4 * 2500))

/-- Embedding of GeoLocation.__str__: both coordinates rendered by
fmtCoord, joined by a comma. -/
def GeoLocation.toDisplayString (g : GeoLocation) : String :=
  fmtCoord g.latitude ++ "," ++ fmtCoord g.longitude

/-- A point in time at second precision, as produced by
datetime.datetime.strptime with format %Y-%m-%d %H:%M:%S. -/
structure DateTime where
  year : Nat
  month : Nat
  day : Nat
  hour : Nat
  minute : Nat
  second : Nat
  deriving DecidableEq

/-- One numeric strptime field of one or two digits.  CPython compiles
each directive to a regex listing its admissible values (for example %m
becomes 1[0-2]|0[1-9]|[1-9]); because every such field is followed by a
non-digit literal or the end of input, the backtracking regex is
observationally equal to this deterministic scan: take two digits when
two are available and require the two-digit value admissible, else take
one digit and require the one-digit value admissible. -/
def parseField2 (oneOk twoOk : Nat → Bool) :
    List Char → Option (Nat × List Char)
  | c1 :: c2 :: rest =>
    if c1.isDigit then
      if c2.isDigit then
        let v := 10 * digitVal c1 + digitVal c2
        if twoOk v then some (v, rest) else none
      else if oneOk (digitVal c1) then some (digitVal c1, c2 :: rest) else none
    else none
  | [c1] =>
    if c1.isDigit && oneOk (digitVal c1) then some (digitVal c1, []) else none
  | [] => none

/-- The %Y strptime field: exactly four digits. -/
def parseYear4 : List Char → Option (Nat × List Char)
  | a :: b :: c :: d :: rest =>
    if a.isDigit && b.isDigit && c.isDigit && d.isDigit then
      some (1000 * digitVal a + 100 * digitVal b + 10 * digitVal c + digitVal d, rest)
    else none
  | _ => none

/-- One literal character of the strptime format string. -/
def expectChar (c : Char) : List Char → Option (List Char)
  | x :: rest => if x = c then some rest else none
  | [] => none

/-- Gregorian leap-year rule, as used by datetime's day-of-month
validation. -/
def isLeapYear (y : Nat) : Bool :=
  y % 4 == 0 && (y % 100 != 0 || y % 400 == 0)

/-- Number of days of a month, as enforced by the datetime constructor. -/
def daysInMonth (y m : Nat) : Nat :=
  if m = 2 then (if isLeapYear y then 29 else 28)
  else if m = 4 ∨ m = 6 ∨ m = 9 ∨ m = 11 then 30
  else 31

/-- Embedding of DateTimeFactory.from_str (malbeacon.py lines 37-39),
i.e. datetime.datetime.strptime(s, '%Y-%m-%d %H:%M:%S'): four-digit
year, then month, day, hour, minute and second fields separated by the
literal characters of the format, with no input left over, followed by
the datetime constructor's range checks (year at least 1, day within the
month, second at most 59; strptime itself admits seconds 60 and 61 which
the constructor then rejects, so both are failures).  Two liberalities
of CPython's strptime are deliberately not modelled, both away from
every input the theorems touch: the numeric fields also accept non-ASCII
Unicode digits, and the literal space of the format is compiled to \s+,
so runs of (Unicode) whitespace are accepted there. -/
def DateTimeFactory.from_str (s : String) : Option DateTime := do
  let (y, r1) ← parseYear4 s.data
  let r2 ← expectChar '-' r1
  let (mo, r3) ← parseField2 (fun v => v != 0) (fun v => decide (1 ≤ v ∧ v ≤ 12)) r2
  let r4 ← expectChar '-' r3
  let (d, r5) ← parseField2 (fun v => v != 0) (fun v => decide (1 ≤ v ∧ v ≤ 31)) r4
  let r6 ← expectChar ' ' r5
  let (h, r7) ← parseField2 (fun _ => true) (fun v => decide (v ≤ 23)) r6
  let r8 ← expectChar ':' r7
  let (mi, r9) ← parseField2 (fun _ => true) (fun v => decide (v ≤ 59)) r8
  let r10 ← expectChar ':' r9
  let (sec, r11) ← parseField2 (fun _ => true) (fun v => decide (v ≤ 61)) r10
  if r11 = [] ∧ 1 ≤ y ∧ d ≤ daysInMonth y mo ∧ sec ≤ 59 then
    some ⟨y, mo, d, h, mi, sec⟩
  else none

/-- Embedding of DateTimeFactory.to_date_str (malbeacon.py lines 29-31):
strftime('%Y-%m-%d') with zero padding. -/
def DateTimeFactory.to_date_str (dt : DateTime) : String :=
  padZeros 4 (toString dt.year) ++ "-" ++ padZeros 2 (toString dt.month)
    ++ "-" ++ padZeros 2 (toString dt.day)

/-- The distinguished CookieId string wrapper (malbeacon.py lines
103-108). -/
structure CookieId where
  value : String
  deriving DecidableEq

/-- The distinguished Tag string wrapper (malbeacon.py lines 187-192). -/
structure Tag where
  value : String
  deriving DecidableEq

/-- One decoded JSON object of an API response, with the exact field
names the source reads in C2Beacon.from_response_line.  Optional scalar
fields are Option String (none is JSON null); tstamp and cookie_id are
always present in a well-formed response and the source reads them
unconditionally. -/
structure ResponseLine where
  tstamp : String
  actorasnorg : Option String
  actorcity : Option String
  actorcountrycode : Option String
  actorhostname : Option String
  actorip : Option String
  actorloc : Option String
  actorregion : Option String
  actortimezone : Option String
  c2 : Option String
  c2asnorg : Option String
  c2city : Option String
  c2countrycode : Option String
  c2domain : Option String
  c2domainresolved : Option String
  c2hostname : Option String
  c2loc : Option String
  c2region : Option String
  c2timezone : Option String
  cookie_id : String
  useragent : Option String
  tags : Option String
  deriving DecidableEq

/-- The canonical beacon entity (malbeacon.py lines 195-223).  The source
stores every normalized field verbatim, so the country-code, region and
timezone fields hold plain strings exactly as the constructor receives
them. -/
structure C2Beacon where
  timestamp : DateTime
  actor_asn_organization : Option String
  actor_city : Option String
  actor_country_code : Option String
  actor_hostname : Option String
  actor_ip : Option String
  actor_location : Option GeoLocation
  actor_region : Option String
  actor_timezone : Option String
  c2 : Option String
  c2_asn_organization : Option String
  c2_city : Option String
  c2_country_code : Option String
  c2_domain : Option String
  c2_domain_resolved : Option String
  c2_hostname : Option String
  c2_location : Option GeoLocation
  c2_region : Option String
  c2_timezone : Option String
  cookie_id : CookieId
  user_agent : Option String
  tags : List Tag
  deriving DecidableEq

/-- The geolocation-field idiom of from_response_line:
None if is_null(v) else GeoLocation.from_string(v).  A parse failure of a
present, non-sentinel value fails the whole line. -/
def locField : Option String → Except MalBeaconError (Option GeoLocation)
  | none => .ok none
  | some s =>
    if s = "NA" then .ok none
    else (GeoLocation.from_string s).map some

/-- Embedding of C2Beacon.from_response_line (malbeacon.py lines
225-250).  The timestamp is parsed first, then the two geolocation
fields in source order; any parse failure aborts the line with a
MalBeaconParsingException.  Every optional scalar field goes through the
field normalizer; cookie_id is wrapped verbatim; tags becomes the empty
sequence on the sentinel and a one-element sequence otherwise. -/
def C2Beacon.from_response_line (r : ResponseLine) :
    Except MalBeaconError C2Beacon := do
  let ts ← match DateTimeFactory.from_str r.tstamp with
    | some t => Except.ok t
    | none =>
      Except.error (.parsingError ("time data does not match format: " ++ r.tstamp))
  let aloc ← locField r.actorloc
  let cloc ← locField r.c2loc
  Except.ok {
    timestamp := ts
    actor_asn_organization := normalizeField r.actorasnorg
    actor_city := normalizeField r.actorcity
    actor_country_code := normalizeField r.actorcountrycode
    actor_hostname := normalizeField r.actorhostname
    actor_ip := normalizeField r.actorip
    actor_location := aloc
    actor_region := normalizeField r.actorregion
    actor_timezone := normalizeField r.actortimezone
    c2 := normalizeField r.c2
    c2_asn_organization := normalizeField r.c2asnorg
    c2_city := normalizeField r.c2city
    c2_country_code := normalizeField r.c2countrycode
    c2_domain := normalizeField r.c2domain
    c2_domain_resolved := normalizeField r.c2domainresolved
    c2_hostname := normalizeField r.c2hostname
    c2_location := cloc
    c2_region := normalizeField r.c2region
    c2_timezone := normalizeField r.c2timezone
    cookie_id := ⟨r.cookie_id⟩
    user_agent := normalizeField r.useragent
    tags := if MalBeaconClient.is_null r.tags then []
            else match r.tags with
              | some t => [⟨t⟩]
              | none => []
  }

/-- The list comprehension shared by every query method of
MalBeaconClient (for example by_cookie_id, malbeacon.py lines 289-290):
convert each response line in order; an exception thrown by any line
aborts the whole comprehension, so no partial list is ever produced. -/
def MalBeaconClient.beaconsFromResponse :
    List ResponseLine → Except MalBeaconError (List C2Beacon)
  | [] => .ok []
  | l :: ls =>
    match C2Beacon.from_response_line l with
    | .error e => .error e
    | .ok b =>
      match MalBeaconClient.beaconsFromResponse ls with
      | .error e => .error e
      | .ok bs => .ok (b :: bs)

/-- Result of one classified HTTP GET, abstracting the control flow of
MalBeaconClient._get: a payload of decoded response lines, a generic
MalBeaconApiException, or a MalBeaconUnauthorizedException. -/
inductive ApiOutcome (α : Type) where
  | ok (payload : List α)
  | apiError (message : String) (url : String)
  | unauthorized (url : String)
  deriving DecidableEq

/-- Embedding of MalBeaconClient._get (malbeacon.py lines 274-287).  The
HTTP response is abstracted as its status code, its raw content, the
message field of its decoded JSON body (inspected on the error statuses)
and its decoded payload (returned on status 200). -/
def MalBeaconClient.classifyGet {α : Type} (status : Nat) (content : String)
    (message : String) (payload : List α) (url : String) : ApiOutcome α :=
  if status = 400 then
    if message = "ERROR: No Results" then .ok []
    else .apiError ("Generic API Exception: " ++ content) url
  else if status = 401 then
    if message = "ERROR: Unauthorized" then .unauthorized url
    else .apiError ("Generic API Exception: " ++ content) url
  else if status ≠ 200 then .apiError ("Generic API Exception: " ++ content) url
  else .ok payload

/-- One row of the display table of main: the timestamp, actor-IP and C2
cells.  Header cells are present strings; data cells carry the possibly
absent record fields exactly as the source appends them. -/
structure TableRow where
  ts : Option String
  ip : Option String
  c2 : Option String
  deriving DecidableEq

/-- The header row ['Timestamp', 'Actor IP', 'C2 URL'] that seeds
table_data in main (malbeacon.py line 419). -/
def headerRow : TableRow :=
  ⟨some "Timestamp", some "Actor IP", some "C2 URL"⟩

/-- One loop iteration of the table-building part of main (malbeacon.py
lines 441-454): when the table is non-empty and the last row's actor-IP
and C2 cells equal the record's, the record is suppressed and the
reduced flag set; otherwise a row with the record's date string, actor
IP and C2 is appended. -/
def tableStep (st : List TableRow × Bool) (b : C2Beacon) :
    List TableRow × Bool :=
  match st.1.getLast? with
  | some last =>
    if last.ip = b.actor_ip ∧ last.c2 = b.c2 then (st.1, true)
    else
      (st.1 ++ [⟨some (DateTimeFactory.to_date_str b.timestamp), b.actor_ip, b.c2⟩],
        st.2)
  | none =>
    (st.1 ++ [⟨some (DateTimeFactory.to_date_str b.timestamp), b.actor_ip, b.c2⟩],
      st.2)

/-- The whole table-building loop of main: fold tableStep over the
record sequence starting from the header row with the reduced flag
clear. -/
def buildTable (recs : List C2Beacon) : List TableRow × Bool :=
  recs.foldl tableStep ([headerRow], false)

/-- A beacon record with the given timestamp, actor IP and C2 and every
other optional field absent, used to state the result-reducer scenario. -/
def mkBeacon (ts : DateTime) (ip c2v : Option String) : C2Beacon :=
  { timestamp := ts
    actor_asn_organization := none, actor_city := none
    actor_country_code := none, actor_hostname := none
    actor_ip := ip, actor_location := none
    actor_region := none, actor_timezone := none
    c2 := c2v, c2_asn_organization := none
    c2_city := none, c2_country_code := none
    c2_domain := none, c2_domain_resolved := none
    c2_hostname := none, c2_location := none
    c2_region := none, c2_timezone := none
    cookie_id := ⟨"cid"⟩, user_agent := none
    tags := [] }

/-- Decidable equality on classified results, used to evaluate concrete
outcomes. -/
instance {ε α : Type} [DecidableEq ε] [DecidableEq α] :
    DecidableEq (Except ε α) := fun a b =>
  match a, b with
  | .error e1, .error e2 =>
    if h : e1 = e2 then isTrue (by rw [h]) else isFalse (by simp [h])
  | .ok v1, .ok v2 =>
    if h : v1 = v2 then isTrue (by rw [h]) else isFalse (by simp [h])
  | .error _, .ok _ => isFalse (by simp)
  | .ok _, .error _ => isFalse (by simp)

/-- C9: the request-sending layer substitutes the fixed default timeout 5
exactly when the caller supplied none, and passes every explicitly
supplied timeout value through unchanged. -/
theorem C9_fixed_timeout :
    FixedTimeoutAdapter.sendTimeout none = 5 ∧
      ∀ t : ℚ, FixedTimeoutAdapter.sendTimeout (some t) = t :=
  ⟨rfl, fun _ => rfl⟩

/-- C10: GeoLocation parsing is not injective: the distinct valid inputs
52,13 and 0.0052,0.0013 parse to the identical integer pair (52, 13), so
an integer pair alone does not determine its source coordinate. -/
theorem C10_parse_not_injective :
    GeoLocation.from_string "52,13" = .ok ⟨52, 13⟩ ∧
      GeoLocation.from_string "0.0052,0.0013" = .ok ⟨52, 13⟩ ∧
      "52,13" ≠ "0.0052,0.0013" :=
  ⟨by decide, by decide, by decide⟩

/-- C2: formatting renders each stored coordinate as float(value)/4 with
four decimal places (the definition of fmtCoord); in consequence parsing
52.5000 stores the integer 525000 and formatting the resulting
GeoLocation yields 131250.0000,131250.0000, not the original string, so
formatting is not a left inverse of parsing. -/
theorem C2_format_not_left_inverse :
    GeoLocation.from_string "52.5000,52.5000" = .ok ⟨525000, 525000⟩ ∧
      fmtCoord 525000 = "131250.0000" ∧
      GeoLocation.toDisplayString ⟨525000, 525000⟩ = "131250.0000,131250.0000" ∧
      fmtCoord 525000 ≠ "52.5000" :=
  ⟨by decide, by decide, by decide, by decide⟩

/-- C3: the field normalizer yields absence exactly on the sentinel
string NA and on an already absent value; every other value, the empty
string included, passes through unchanged. -/
theorem C3_field_normalizer (v : Option String) :
    (normalizeField v = none ↔ v = some "NA" ∨ v = none) ∧
      (v ≠ some "NA" → normalizeField v = v) ∧
      normalizeField (some "") = some "" := by
  refine ⟨?_, ?_, by decide⟩
  · unfold normalizeField MalBeaconClient.is_null
    cases v with
    | none => simp
    | some s => by_cases h : s = "NA" <;> simp [h]
  · intro hne
    unfold normalizeField MalBeaconClient.is_null
    cases v with
    | none => simp
    | some s =>
      have : s ≠ "NA" := fun h => hne (by rw [h])
      simp [this]

/-- Witness for C3 at concrete inputs: the sentinel is normalized to
absence, the empty string is not. -/
theorem C3_field_normalizer_witness :
    normalizeField (some "NA") = none ∧ normalizeField (some "") = some "" :=
  ⟨(C3_field_normalizer (some "NA")).1.mpr (Or.inl rfl),
    (C3_field_normalizer (some "")).2.2⟩

/-- C4: the error classifier maps status 400 with body message
ERROR: No Results to the empty result sequence, status 400 with any other
message to a generic ApiError, status 401 with message
ERROR: Unauthorized to UnauthorizedError, status 401 with any other
message to a generic ApiError, status 200 to the payload passed through,
and every other status to a generic ApiError. -/
theorem C4_error_classifier (α : Type) (content message : String)
    (payload : List α) (url : String) (status : Nat) :
    (MalBeaconClient.classifyGet 400 content "ERROR: No Results" payload url
        = .ok []) ∧
      (message ≠ "ERROR: No Results" →
        MalBeaconClient.classifyGet 400 content message payload url
          = .apiError ("Generic API Exception: " ++ content) url) ∧
      (MalBeaconClient.classifyGet 401 content "ERROR: Unauthorized" payload url
        = .unauthorized url) ∧
      (message ≠ "ERROR: Unauthorized" →
        MalBeaconClient.classifyGet 401 content message payload url
          = .apiError ("Generic API Exception: " ++ content) url) ∧
      (MalBeaconClient.classifyGet 200 content message payload url
        = .ok payload) ∧
      (status ≠ 400 → status ≠ 401 → status ≠ 200 →
        MalBeaconClient.classifyGet status content message payload url
          = .apiError ("Generic API Exception: " ++ content) url) := by
  refine ⟨?_, fun h => ?_, ?_, fun h => ?_, ?_, fun h1 h2 h3 => ?_⟩ <;>
    simp [MalBeaconClient.classifyGet, *]

/-- Witness for C4 at concrete inputs: a 400 with an unexpected message,
a 401 with an unexpected message and an unlisted status all classify as
the generic ApiError. -/
theorem C4_error_classifier_witness :
    MalBeaconClient.classifyGet 400 "raw" "other" ([] : List Nat) "u"
        = .apiError ("Generic API Exception: " ++ "raw") "u" ∧
      MalBeaconClient.classifyGet 401 "raw" "other" ([] : List Nat) "u"
        = .apiError ("Generic API Exception: " ++ "raw") "u" ∧
      MalBeaconClient.classifyGet 503 "raw" "other" ([] : List Nat) "u"
        = .apiError ("Generic API Exception: " ++ "raw") "u" :=
  ⟨(C4_error_classifier Nat "raw" "other" [] "u" 503).2.1 (by decide),
    (C4_error_classifier Nat "raw" "other" [] "u" 503).2.2.2.1 (by decide),
    (C4_error_classifier Nat "raw" "other" [] "u" 503).2.2.2.2.2
      (by decide) (by decide) (by decide)⟩

/-- C5: on the response line with tstamp 2023-01-15 08:00:00, actorip NA,
c2 evil.example, c2loc 40.7128,-74.0060, cookie_id abc123, tags malware
and every remaining optional field set to the sentinel, the assembled
record has an absent actor IP, c2 evil.example, the integer location
pair (407128, -740060), the cookie id wrapping abc123 and the singleton
tag sequence. -/
theorem C5_end_to_end_assembly :
    C2Beacon.from_response_line
        { tstamp := "2023-01-15 08:00:00"
          actorasnorg := some "NA", actorcity := some "NA"
          actorcountrycode := some "NA", actorhostname := some "NA"
          actorip := some "NA", actorloc := some "NA"
          actorregion := some "NA", actortimezone := some "NA"
          c2 := some "evil.example", c2asnorg := some "NA"
          c2city := some "NA", c2countrycode := some "NA"
          c2domain := some "NA", c2domainresolved := some "NA"
          c2hostname := some "NA", c2loc := some "40.7128,-74.0060"
          c2region := some "NA", c2timezone := some "NA"
          cookie_id := "abc123", useragent := some "NA"
          tags := some "malware" }
      = .ok
        { timestamp := ⟨2023, 1, 15, 8, 0, 0⟩
          actor_asn_organization := none, actor_city := none
          actor_country_code := none, actor_hostname := none
          actor_ip := none, actor_location := none
          actor_region := none, actor_timezone := none
          c2 := some "evil.example", c2_asn_organization := none
          c2_city := none, c2_country_code := none
          c2_domain := none, c2_domain_resolved := none
          c2_hostname := none, c2_location := some ⟨407128, -740060⟩
          c2_region := none, c2_timezone := none
          cookie_id := ⟨"abc123"⟩, user_agent := none
          tags := [⟨"malware"⟩] } := by
  decide

/-- C6: one step of the table builder suppresses the incoming record
exactly when its actor-IP and C2 pair equals the cells of the
immediately preceding row, whatever the timestamp, and suppression sets
the reduced flag; on the scenario (A, X, t1), (A, X, t2), (B, X, t3) the
built table holds the header and exactly 2 data rows with the reduced
flag set. -/
theorem C6_table_deduplication :
    (∀ (rows : List TableRow) (red : Bool) (b : C2Beacon) (last : TableRow),
        rows.getLast? = some last →
          tableStep (rows, red) b =
            if last.ip = b.actor_ip ∧ last.c2 = b.c2 then (rows, true)
            else
              (rows ++
                  [⟨some (DateTimeFactory.to_date_str b.timestamp),
                    b.actor_ip, b.c2⟩],
                red)) ∧
      (buildTable
            [mkBeacon ⟨2023, 1, 1, 0, 0, 1⟩ (some "A") (some "X"),
              mkBeacon ⟨2023, 1, 1, 0, 0, 2⟩ (some "A") (some "X"),
              mkBeacon ⟨2023, 1, 1, 0, 0, 3⟩ (some "B") (some "X")]).1.length
          = 3 ∧
      (buildTable
            [mkBeacon ⟨2023, 1, 1, 0, 0, 1⟩ (some "A") (some "X"),
              mkBeacon ⟨2023, 1, 1, 0, 0, 2⟩ (some "A") (some "X"),
              mkBeacon ⟨2023, 1, 1, 0, 0, 3⟩ (some "B") (some "X")]).2
          = true := by
  refine ⟨?_, by decide, by decide⟩
  intro rows red b last hlast
  unfold tableStep
  rw [hlast]

/-- Witness for C6: a record equal in actor IP and C2 to the preceding
row is suppressed with the reduced flag set, and one differing in actor
IP is appended. -/
theorem C6_table_deduplication_witness :
    tableStep ([⟨some "2023-01-01", some "A", some "X"⟩], false)
        (mkBeacon ⟨2023, 1, 1, 0, 0, 2⟩ (some "A") (some "X"))
      = ([⟨some "2023-01-01", some "A", some "X"⟩], true) ∧
      tableStep ([⟨some "2023-01-01", some "A", some "X"⟩], false)
          (mkBeacon ⟨2023, 1, 1, 0, 0, 3⟩ (some "B") (some "X"))
        = ([⟨some "2023-01-01", some "A", some "X"⟩,
            ⟨some "2023-01-01", some "B", some "X"⟩], false) := by
  constructor
  · rw [C6_table_deduplication.1 [⟨some "2023-01-01", some "A", some "X"⟩]
      false (mkBeacon ⟨2023, 1, 1, 0, 0, 2⟩ (some "A") (some "X"))
      ⟨some "2023-01-01", some "A", some "X"⟩ rfl]
    decide
  · rw [C6_table_deduplication.1 [⟨some "2023-01-01", some "A", some "X"⟩]
      false (mkBeacon ⟨2023, 1, 1, 0, 0, 3⟩ (some "B") (some "X"))
      ⟨some "2023-01-01", some "A", some "X"⟩ rfl]
    decide

/-- Unfolding equation of the digit-run search on a non-empty list. -/
theorem searchDigitRun_cons (c : Char) (rest : List Char) :
    Guesser.searchDigitRun (c :: rest) =
      if 2 ≤ (((c :: rest).takeWhile pyIsDigit).take 8).length then
        some (((c :: rest).takeWhile pyIsDigit).take 8)
      else Guesser.searchDigitRun rest := rfl

/-- The leftmost search for two adjacent digits succeeds exactly when the
character list contains two adjacent digits. -/
theorem searchDigitRun_isSome (cs : List Char) :
    (Guesser.searchDigitRun cs).isSome = hasAdjacentDigits cs := by
  induction cs with
  | nil => rfl
  | cons c rest ih =>
    rw [searchDigitRun_cons]
    cases rest with
    | nil =>
      cases h : pyIsDigit c <;>
        simp [List.takeWhile_cons, h, Guesser.searchDigitRun, hasAdjacentDigits]
    | cons c2 rest2 =>
      by_cases h1 : pyIsDigit c = true
      · by_cases h2 : pyIsDigit c2 = true
        · have hcond :
              2 ≤ (((c :: c2 :: rest2).takeWhile pyIsDigit).take 8).length := by
            simp [List.takeWhile_cons, h1, h2, List.length_take]
          rw [if_pos hcond]
          simp [hasAdjacentDigits, h1, h2]
        · have hcond :
              ¬ 2 ≤ (((c :: c2 :: rest2).takeWhile pyIsDigit).take 8).length := by
            simp [List.takeWhile_cons, h1, h2]
          rw [if_neg hcond, ih]
          simp [hasAdjacentDigits, h1, h2]
      · have hcond :
            ¬ 2 ≤ (((c :: c2 :: rest2).takeWhile pyIsDigit).take 8).length := by
          simp [List.takeWhile_cons, h1]
        rw [if_neg hcond, ih]
        simp [hasAdjacentDigits, h1]

/-- C7: numeric ASN extraction finds a 2-to-8 digit run (\d, so any
Unicode decimal digits) and reads it base 10, so the organization
string Acme Networks AS12345 Holdings yields 12345; it yields a value
exactly when the string has two adjacent Unicode decimal digits, hence
absence rather than failure when there is no such run. -/
theorem C7_asn_extraction :
    Guesser.guess_numeric_asn_from_organization_string
        "Acme Networks AS12345 Holdings" = some 12345 ∧
      ∀ s : String,
        (Guesser.guess_numeric_asn_from_organization_string s).isSome
          = hasAdjacentDigits s.data := by
  refine ⟨by decide, fun s => ?_⟩
  unfold Guesser.guess_numeric_asn_from_organization_string
  rw [← searchDigitRun_isSome s.data]
  cases Guesser.searchDigitRun s.data <;> rfl

/-- Witness for C7: a string with no two adjacent digits yields
absence, the ASCII example yields 12345, and the Arabic-Indic digits of
AS٣٤ are Unicode decimal digits matched by \d, yielding 34. -/
theorem C7_asn_extraction_witness :
    Guesser.guess_numeric_asn_from_organization_string "Solo 7 Networks"
        = none ∧
      Guesser.guess_numeric_asn_from_organization_string
          "Acme Networks AS12345 Holdings" = some 12345 ∧
      Guesser.guess_numeric_asn_from_organization_string "AS٣٤"
        = some 34 ∧
      (Guesser.guess_numeric_asn_from_organization_string "AS٣٤").isSome
        = hasAdjacentDigits "AS٣٤".data := by
  refine ⟨?_, (C7_asn_extraction).1, by decide, (C7_asn_extraction).2 "AS٣٤"⟩
  have h := (C7_asn_extraction).2 "Solo 7 Networks"
  rw [show hasAdjacentDigits "Solo 7 Networks".data = false from by decide]
    at h
  exact Option.not_isSome_iff_eq_none.mp (by rw [h]; decide)

/-- C8: query operations never salvage partial results: when any
response line of the payload fails to convert, the whole conversion
yields an error that stems from a failing line, and no record sequence
at all. -/
theorem C8_no_partial_salvage (lines : List ResponseLine)
    (l : ResponseLine) (e : MalBeaconError) (hmem : l ∈ lines)
    (herr : C2Beacon.from_response_line l = .error e) :
    ∃ e', MalBeaconClient.beaconsFromResponse lines = .error e' ∧
      ∃ l' ∈ lines, C2Beacon.from_response_line l' = .error e' := by
  induction lines with
  | nil => cases hmem
  | cons x xs ih =>
    cases hx : C2Beacon.from_response_line x with
    | error e0 =>
      exact ⟨e0, by simp [MalBeaconClient.beaconsFromResponse, hx],
        x, List.mem_cons_self x xs, hx⟩
    | ok b =>
      rcases List.mem_cons.mp hmem with rfl | hmem'
      · rw [hx] at herr; cases herr
      · obtain ⟨e', h1, l', hl', h2⟩ := ih hmem'
        exact ⟨e', by simp [MalBeaconClient.beaconsFromResponse, hx, h1],
          l', List.mem_cons_of_mem x hl', h2⟩

/-- Witness for C8: a single-line payload whose timestamp is malformed
makes the whole conversion fail. -/
theorem C8_no_partial_salvage_witness :
    ∃ e', MalBeaconClient.beaconsFromResponse
          [{ tstamp := "garbage"
             actorasnorg := none, actorcity := none
             actorcountrycode := none, actorhostname := none
             actorip := none, actorloc := none
             actorregion := none, actortimezone := none
             c2 := none, c2asnorg := none
             c2city := none, c2countrycode := none
             c2domain := none, c2domainresolved := none
             c2hostname := none, c2loc := none
             c2region := none, c2timezone := none
             cookie_id := "c", useragent := none
             tags := none }]
        = .error e' ∧
      ∃ l' ∈ [({ tstamp := "garbage"
                 actorasnorg := none, actorcity := none
                 actorcountrycode := none, actorhostname := none
                 actorip := none, actorloc := none
                 actorregion := none, actortimezone := none
                 c2 := none, c2asnorg := none
                 c2city := none, c2countrycode := none
                 c2domain := none, c2domainresolved := none
                 c2hostname := none, c2loc := none
                 c2region := none, c2timezone := none
                 cookie_id := "c", useragent := none
                 tags := none } : ResponseLine)],
        C2Beacon.from_response_line l' = .error e' :=
  C8_no_partial_salvage _ _
    (.parsingError ("time data does not match format: " ++ "garbage"))
    (List.mem_singleton.mpr rfl) (by decide)

/-- takeWhile and dropWhile on a list made of a prefix wholly satisfying
the predicate followed by a suffix whose head fails it. -/
theorem takeWhile_append_all (p : Char → Bool) :
    ∀ ds rest : List Char, (∀ c ∈ ds, p c = true) →
      (∀ x, rest.head? = some x → p x = false) →
      (ds ++ rest).takeWhile p = ds ∧ (ds ++ rest).dropWhile p = rest := by
  intro ds
  induction ds with
  | nil =>
    intro rest _ h2
    cases rest with
    | nil => exact ⟨rfl, rfl⟩
    | cons r rs =>
      have hpr := h2 r rfl
      exact ⟨by simp [List.takeWhile_cons, hpr],
        by simp [List.dropWhile_cons, hpr]⟩
  | cons d ds ih =>
    intro rest h1 h2
    have hd : p d = true := h1 d (List.mem_cons_self d ds)
    have ih' := ih rest (fun c hc => h1 c (List.mem_cons_of_mem d hc)) h2
    exact ⟨by simp [List.takeWhile_cons, hd, ih'.1],
      by simp [List.dropWhile_cons, hd, ih'.2]⟩

/-- A Unicode decimal digit is never Python whitespace: the Nd digit
blocks and the whitespace code points are disjoint. -/
theorem pyIsSpace_eq_false_of_isDigit {c : Char} (h : pyIsDigit c = true) :
    pyIsSpace c = false := by
  simp only [pyIsDigit, List.any_eq_true, decide_eq_true_eq] at h
  obtain ⟨b, hb, hbc⟩ := h
  cases hc : pyIsSpace c
  · rfl
  · exfalso
    simp only [pyIsSpace, decide_eq_true_eq] at hc
    simp only [ndBases, List.mem_cons, List.not_mem_nil, or_false] at hb
    omega

/-- A string of the number language is non-empty and starts with a minus
sign or a digit, hence never with whitespace. -/
theorem NumP_head {b : List Char} (h : NumP b) :
    ∃ x xs, b = x :: xs ∧ pyIsSpace x = false := by
  obtain ⟨sgn, ds, fr, rfl, hsgn, hds, hdig, _⟩ := h
  rcases hsgn with rfl | rfl
  · cases ds with
    | nil => exact absurd rfl hds
    | cons d ds' =>
      exact ⟨d, ds' ++ fr, by simp,
        pyIsSpace_eq_false_of_isDigit (hdig d (List.mem_cons_self d ds'))⟩
  · exact ⟨'-', ds ++ fr, rfl, by decide⟩

/-- Completeness of the unsigned number scanner: on a string of the
number language followed by a rest whose head is neither a digit nor a
dot, it captures exactly the number. -/
theorem numTokCore_complete (sgn : List Char) {ds fr rest : List Char}
    (hds : ds ≠ []) (hdig : ∀ c ∈ ds, pyIsDigit c = true) (hfr : FracShape fr)
    (hrest : ∀ x, rest.head? = some x → pyIsDigit x = false ∧ x ≠ '.') :
    numTokCore sgn (ds ++ (fr ++ rest)) = some (sgn ++ (ds ++ fr), rest) := by
  rcases hfr with rfl | ⟨fs, rfl, hlen, hfdig⟩
  · have h := takeWhile_append_all pyIsDigit ds rest hdig
      (fun x hx => (hrest x hx).1)
    have hdot : ¬ rest.head? = some '.' := fun hx => (hrest '.' hx).2 rfl
    simp only [List.nil_append, numTokCore, List.append_nil]
    rw [h.1, h.2, if_neg hds, if_neg hdot]
  · have h1 := takeWhile_append_all pyIsDigit ds ('.' :: (fs ++ rest)) hdig
      (fun x hx => by
        rw [List.head?_cons] at hx
        cases Option.some.inj hx
        decide)
    have h2 := takeWhile_append_all pyIsDigit fs rest hfdig
      (fun x hx => (hrest x hx).1)
    have hassoc : ('.' :: fs) ++ rest = '.' :: (fs ++ rest) := rfl
    simp only [numTokCore, hassoc]
    rw [h1.1, h1.2, if_neg hds, if_pos (List.head?_cons)]
    simp only [List.tail_cons]
    rw [h2.1, h2.2, if_pos hlen]
    simp [List.append_assoc]

/-- Completeness of the signed number scanner. -/
theorem numTok_of_NumP {a rest : List Char} (h : NumP a)
    (hrest : ∀ x, rest.head? = some x → pyIsDigit x = false ∧ x ≠ '.') :
    numTok (a ++ rest) = some (a, rest) := by
  obtain ⟨sgn, ds, fr, rfl, hsgn, hds, hdig, hfr⟩ := h
  rcases hsgn with rfl | rfl
  · cases ds with
    | nil => exact absurd rfl hds
    | cons d ds' =>
      have hd : pyIsDigit d = true := hdig d (List.mem_cons_self d ds')
      have hdm : d ≠ '-' := fun he => absurd (he ▸ hd) (by decide)
      have hhead : (([] ++ ((d :: ds') ++ fr)) ++ rest).head? = some d := by simp
      unfold numTok
      rw [if_neg (by rw [hhead]; simp [hdm])]
      have hcore := numTokCore_complete [] hds hdig hfr hrest
      simpa [List.append_assoc] using hcore
  · unfold numTok
    have hhead : (((['-'] ++ (ds ++ fr)) ++ rest)).head? = some '-' := by simp
    rw [if_pos hhead]
    have hcore := numTokCore_complete ['-'] hds hdig hfr hrest
    simpa [List.append_assoc] using hcore

/-- Soundness of the unsigned number scanner: a successful scan splits
its input into the capture (behind the sign) and the rest, and the
capture belongs to the number language. -/
theorem numTokCore_sound {sgn cs1 cap rest : List Char}
    (h : numTokCore sgn cs1 = some (cap, rest)) :
    ∃ ds fr, cap = sgn ++ (ds ++ fr) ∧ cs1 = ds ++ (fr ++ rest) ∧
      ds ≠ [] ∧ (∀ c ∈ ds, pyIsDigit c = true) ∧ FracShape fr := by
  simp only [numTokCore] at h
  set tw := cs1.takeWhile pyIsDigit with htw
  set dw := cs1.dropWhile pyIsDigit with hdwdef
  have hsplit : tw ++ dw = cs1 := List.takeWhile_append_dropWhile pyIsDigit cs1
  have hdig : ∀ c ∈ tw, pyIsDigit c = true :=
    fun c hc => List.mem_takeWhile_imp (htw ▸ hc)
  by_cases h1 : tw = []
  · rw [if_pos h1] at h
    exact absurd h (by simp)
  · rw [if_neg h1] at h
    by_cases h2 : dw.head? = some '.'
    · rw [if_pos h2] at h
      obtain ⟨dwt, hdw⟩ := List.head?_eq_some_iff.mp h2
      rw [hdw] at h hsplit
      simp only [List.tail_cons] at h
      set fs := dwt.takeWhile pyIsDigit with hfs
      set dr := dwt.dropWhile pyIsDigit with hdr
      have hsplit2 : fs ++ dr = dwt :=
        List.takeWhile_append_dropWhile pyIsDigit dwt
      have hfdig : ∀ c ∈ fs, pyIsDigit c = true :=
        fun c hc => List.mem_takeWhile_imp (hfs ▸ hc)
      by_cases h3 : fs.length = 4
      · rw [if_pos h3] at h
        have hp := Option.some.inj h
        have hcap : sgn ++ tw ++ '.' :: fs = cap := congrArg Prod.fst hp
        have hrest : dr = rest := congrArg Prod.snd hp
        refine ⟨tw, '.' :: fs, ?_, ?_, h1, hdig,
          Or.inr ⟨fs, rfl, h3, hfdig⟩⟩
        · rw [← hcap]; simp [List.append_assoc]
        · rw [← hsplit, ← hrest, ← hsplit2]
          simp [List.cons_append]
      · rw [if_neg h3] at h
        have hp := Option.some.inj h
        have hcap : sgn ++ tw = cap := congrArg Prod.fst hp
        have hrest : '.' :: dwt = rest := congrArg Prod.snd hp
        exact ⟨tw, [], by rw [← hcap]; simp,
          by rw [← hsplit, ← hrest]; simp, h1, hdig, Or.inl rfl⟩
    · rw [if_neg h2] at h
      have hp := Option.some.inj h
      have hcap : sgn ++ tw = cap := congrArg Prod.fst hp
      have hrest : dw = rest := congrArg Prod.snd hp
      exact ⟨tw, [], by rw [← hcap]; simp,
        by rw [← hsplit, ← hrest]; simp, h1, hdig, Or.inl rfl⟩

/-- Soundness of the signed number scanner. -/
theorem numTok_sound {cs cap rest : List Char}
    (h : numTok cs = some (cap, rest)) : cs = cap ++ rest ∧ NumP cap := by
  unfold numTok at h
  by_cases hneg : cs.head? = some '-'
  · rw [if_pos hneg] at h
    obtain ⟨tl, rfl⟩ := List.head?_eq_some_iff.mp hneg
    simp only [List.tail_cons] at h
    obtain ⟨ds, fr, hcap, htl, hds, hdig, hfr⟩ := numTokCore_sound h
    constructor
    · simp [hcap, htl, List.append_assoc]
    · exact ⟨['-'], ds, fr, hcap, Or.inr rfl, hds, hdig, hfr⟩
  · rw [if_neg hneg] at h
    obtain ⟨ds, fr, hcap, hcs, hds, hdig, hfr⟩ := numTokCore_sound h
    constructor
    · simp [hcap, hcs, List.append_assoc]
    · exact ⟨[], ds, fr, hcap, Or.inl rfl, hds, hdig, hfr⟩

/-- Soundness of the full geolocation scanner: a successful scan yields a
grammar decomposition of the input whose captures are the scan's. -/
theorem geoCaptures_sound {s : String} {c1 c2 : List Char}
    (h : geoCaptures s = some (c1, c2)) : ∃ w t, GeoDecomp s c1 w c2 t := by
  unfold geoCaptures at h
  cases h1 : numTok s.data with
  | none => rw [h1] at h; simp at h
  | some p =>
    obtain ⟨c1', r1⟩ := p
    rw [h1] at h
    dsimp only at h
    by_cases hc : r1.head? = some ','
    · rw [if_pos hc] at h
      obtain ⟨r1t, rfl⟩ := List.head?_eq_some_iff.mp hc
      simp only [List.tail_cons] at h
      cases h2 : numTok (r1t.dropWhile pyIsSpace) with
      | none => rw [h2] at h; simp at h
      | some q =>
        obtain ⟨c2', r4⟩ := q
        rw [h2] at h
        dsimp only at h
        by_cases h4 : r4 = [] ∨ r4 = ['\n']
        · rw [if_pos h4] at h
          have hp := Option.some.inj h
          have hcc1 : c1' = c1 := congrArg Prod.fst hp
          have hcc2 : c2' = c2 := congrArg Prod.snd hp
          subst hcc1
          subst hcc2
          obtain ⟨hsd, hN1⟩ := numTok_sound h1
          obtain ⟨hr3, hN2⟩ := numTok_sound h2
          refine ⟨r1t.takeWhile pyIsSpace, r4, ?_, hN1,
            fun c hcmem => List.mem_takeWhile_imp hcmem, hN2, h4⟩
          rw [hsd, ← hr3, List.takeWhile_append_dropWhile]
        · rw [if_neg h4] at h
          simp at h
    · rw [if_neg hc] at h
      simp at h

/-- C1: geolocation parsing is total over the grammar
-?\d+(\.\d{4})?,\s*-?\d+(\.\d{4})?$ (read with the semantics of Python's
re module: \d is any Unicode decimal digit, \s any Unicode whitespace,
and the end anchor also admits one final newline): on any grammar
decomposition the parse succeeds and returns, for each captured number,
the integer obtained by deleting its decimal point and reading it base
10; on any string admitting no decomposition the parse fails with the
parsing error of the source. -/
theorem C1_geolocation_grammar (s : String) :
    (∀ a w b t, GeoDecomp s a w b t →
        GeoLocation.from_string s = .ok ⟨stripDotInt a, stripDotInt b⟩) ∧
      ((¬ ∃ a w b t, GeoDecomp s a w b t) →
        GeoLocation.from_string s
          = .error (.parsingError ("Invalid GeoLocation: " ++ s))) := by
  constructor
  · rintro a w b t ⟨hdata, hA, hW, hB, hT⟩
    obtain ⟨x, xs, hbx, hbsp⟩ := NumP_head hB
    have hbt : ∀ y, (b ++ t).head? = some y → pyIsSpace y = false := by
      intro y hy
      rw [hbx, List.cons_append, List.head?_cons] at hy
      cases Option.some.inj hy
      exact hbsp
    have h1 : numTok (a ++ ',' :: (w ++ (b ++ t)))
        = some (a, ',' :: (w ++ (b ++ t))) :=
      numTok_of_NumP hA (by
        intro y hy
        rw [List.head?_cons] at hy
        cases Option.some.inj hy
        exact ⟨by decide, by decide⟩)
    have h2 : (w ++ (b ++ t)).dropWhile pyIsSpace = b ++ t :=
      (takeWhile_append_all pyIsSpace w (b ++ t) hW hbt).2
    have h3 : numTok (b ++ t) = some (b, t) :=
      numTok_of_NumP hB (by
        intro y hy
        rcases hT with rfl | rfl
        · simp at hy
        · rw [List.head?_cons] at hy
          cases Option.some.inj hy
          exact ⟨by decide, by decide⟩)
    unfold GeoLocation.from_string geoCaptures
    rw [hdata, h1]
    dsimp only
    rw [if_pos List.head?_cons]
    simp only [List.tail_cons]
    rw [h2, h3]
    dsimp only
    rw [if_pos hT]
  · intro hne
    cases hcap : geoCaptures s with
    | none =>
      unfold GeoLocation.from_string
      rw [hcap]
    | some p =>
      exfalso
      obtain ⟨c1, c2⟩ := p
      obtain ⟨w, t, hd⟩ := geoCaptures_sound hcap
      exact hne ⟨c1, w, c2, t, hd⟩

/-- Witness for C1: on 12.3456,7 the parse succeeds with the integers
123456 and 7 told by the grammar decomposition; on the Arabic-Indic
digits of ٥٢,١٣ (Unicode decimal digits, matched by \d) it succeeds
with 52 and 13; with a no-break space after the comma (matched by \s)
it succeeds too; and on 12.34,7 (two fractional digits) no
decomposition exists and the parse fails. -/
theorem C1_geolocation_grammar_witness :
    GeoLocation.from_string "12.3456,7" = .ok ⟨123456, 7⟩ ∧
      GeoLocation.from_string "٥٢,١٣" = .ok ⟨52, 13⟩ ∧
      GeoLocation.from_string "1,\xa02" = .ok ⟨1, 2⟩ ∧
      GeoLocation.from_string "12.34,7"
        = .error (.parsingError ("Invalid GeoLocation: " ++ "12.34,7")) := by
  refine ⟨?_, ?_, ?_, ?_⟩
  · have hd : GeoDecomp "12.3456,7" ['1', '2', '.', '3', '4', '5', '6']
        [] ['7'] [] := by
      refine ⟨by decide, ?_, ?_, ?_, Or.inl rfl⟩
      · exact ⟨[], ['1', '2'], ['.', '3', '4', '5', '6'], rfl, Or.inl rfl,
          by decide, by decide,
          Or.inr ⟨['3', '4', '5', '6'], rfl, rfl, by decide⟩⟩
      · exact fun c hc => absurd hc (List.not_mem_nil c)
      · exact ⟨[], ['7'], [], rfl, Or.inl rfl, by decide, by decide,
          Or.inl rfl⟩
    have hok := (C1_geolocation_grammar "12.3456,7").1 _ _ _ _ hd
    rw [hok]
    decide
  · have hd : GeoDecomp "٥٢,١٣" ['٥', '٢'] [] ['١', '٣'] [] := by
      refine ⟨by decide, ?_, ?_, ?_, Or.inl rfl⟩
      · exact ⟨[], ['٥', '٢'], [], rfl, Or.inl rfl, by decide, by decide,
          Or.inl rfl⟩
      · exact fun c hc => absurd hc (List.not_mem_nil c)
      · exact ⟨[], ['١', '٣'], [], rfl, Or.inl rfl, by decide, by decide,
          Or.inl rfl⟩
    have hok := (C1_geolocation_grammar "٥٢,١٣").1 _ _ _ _ hd
    rw [hok]
    decide
  · have hd : GeoDecomp "1,\xa02" ['1'] ['\xa0'] ['2'] [] := by
      refine ⟨by decide, ?_, ?_, ?_, Or.inl rfl⟩
      · exact ⟨[], ['1'], [], rfl, Or.inl rfl, by decide, by decide,
          Or.inl rfl⟩
      · intro c hc
        rw [List.mem_singleton.mp hc]
        decide
      · exact ⟨[], ['2'], [], rfl, Or.inl rfl, by decide, by decide,
          Or.inl rfl⟩
    have hok := (C1_geolocation_grammar "1,\xa02").1 _ _ _ _ hd
    rw [hok]
    decide
  · have hfail : ¬ ∃ a w b t, GeoDecomp "12.34,7" a w b t := by
      rintro ⟨a, w, b, t, hd⟩
      have hok := (C1_geolocation_grammar "12.34,7").1 a w b t hd
      have herr : GeoLocation.from_string "12.34,7"
          = .error (.parsingError "Invalid GeoLocation: 12.34,7") := by decide
      rw [herr] at hok
      simp at hok
    exact (C1_geolocation_grammar "12.34,7").2 hfail

end MalBeacon
